import Mathlib

/-!
Verification development for the Avnet Azure Sphere samples.

The definitions below are a shallow embedding of the C sources:

* `Samples/AvnetDefaultProject/HighLevelExampleApp/avnet/deferred_updates.c`
  (deferred OTA-update logic),
* `Samples/AvnetRSL10Sensor/device_twin.c` / `deviceTwin.h`
  (device-twin dispatch table and generic property marshalling),
* `Samples/AvnetRSL10Sensor/rsl10.c` / `rsl10.h`
  (RSL10 UART advertisement parsing).

Modelling conventions:

* C `int` values are modelled as `Int`; C unsigned fields that only ever
  hold small non-negative values are modelled as `Nat`.
* C truncating integer division is written `Int.tdiv`.
* Finite IEEE doubles/floats are modelled as exact rationals (`ℚ`); the
  IEEE `NAN` marker is a distinguished value.  No claim below depends on
  floating-point rounding, only on which value is stored where.
* Side effects (logging, telemetry, event-loop timers) that no claim
  mentions are dropped; calls into the OS (`SysEvent_DeferEvent`,
  `TwinReportState`, mutable-storage writes) are recorded in explicit
  result fields so theorems can speak about them.
-/

namespace Avnet

/-! ## C-semantics helpers -/

/-- Model of a C `float`/`double` variable in the RSL10/device-twin code:
`none` stands for the IEEE `NAN` not-yet-reported marker, `some q` for a
finite value (exact-rational abstraction of the IEEE value). -/
abbrev CFloat := Option ℚ

/-- C cast `(int)d` of a double: truncation toward zero. -/
def ratTruncToInt (q : ℚ) : Int := q.num.tdiv (q.den : Int)

/-- C `strncpy`-then-compare used throughout: `strncmp(a, b, n) == 0`.
With no embedded NUL bytes in the model, this is equality of the first
`n` characters (a shorter string must match entirely). -/
def cstrncmpZero (a b : String) (n : Nat) : Bool := a.data.take n == b.data.take n

/-- Model of `snprintf` truncation: at most `n` characters are written. -/
def strTake (s : String) (n : Nat) : String := String.mk (s.data.take n)

/-! ## Deferred OTA updates (`deferred_updates.c`) -/

/-- Mirror of `delayTimeUTC_t` (`deferred_updates.h` lines 55-59). -/
structure DelayTimeUTC where
  OTATargetUtcHour : Int
  OTATargetUtcMinute : Int
  ACCEPTOtaUpdate : Bool
deriving DecidableEq, Repr

/-- The static state of `deferred_updates.c`: the file-scope variables
plus the contents of the mutable-storage file (`none` when the file is
absent or unreadable, as probed by `ReadDelayTimeUTCFromMutableFile`). -/
structure OtaState where
  deferredOtaUpdateTime : Int
  otaTargetUtcHour : Int
  otaTargetUtcMinute : Int
  acceptOtaUpdate : Bool
  pendingOtaUpdate : Bool
  otaUpdateInProgress : Bool
  mutableStorage : Option DelayTimeUTC
deriving DecidableEq, Repr

/-- System events delivered to the callback (`SysEvent_Events`): the code
only distinguishes `SysEvent_Events_UpdateReadyForInstall` from anything
else. -/
inductive SysEventM where
  | updateReadyForInstall
  | otherEvent
deriving DecidableEq, Repr

/-- `SysEvent_Status` values; the callback switch has cases for
Pending/Final/Deferred/Complete and a default that catches Invalid and
every other value. -/
inductive SysEventStatusM where
  | invalid
  | pending
  | final
  | deferredSt
  | complete
deriving DecidableEq, Repr

/-- Exit codes the deferred-update code can raise. -/
inductive OtaExit where
  | unexpectedEvent
  | getUpdateEventFailed
  | finalUpdate
  | unexpectedStatus
deriving DecidableEq, Repr

/-- Result of one run of `deferredOtaUpdateCallback`: the new static
state, the argument passed to `SysEvent_DeferEvent` when that call is
made, and the exit code stored in `exitCode` when one is set. -/
structure OtaCallbackResult where
  state : OtaState
  deferRequest : Option Int
  exitSet : Option OtaExit
deriving DecidableEq, Repr

/-- The delay computed in the `deferredOtaUpdateTime == 0` branch of the
Pending case (`deferred_updates.c` lines 257-293): take the current UTC
time broken down by `gmtime`, substitute the target hour and minute with
seconds zero, advance one day when the target hour is below the current
hour, rebuild with `mktime` (the device runs with UTC local time) and
divide the difference by 60 with C truncating division. -/
def minutesUntilOtaTargetUtc (timeNow : Nat) (tH tM : Int) : Int :=
  let nowHour : Nat := timeNow % 86400 / 3600
  let dayStart : Int := (timeNow : Int) - ((timeNow % 86400 : Nat) : Int)
  let targetSameDay : Int := dayStart + tH * 3600 + tM * 60
  let targetTime : Int := if tH < (nowHour : Int) then targetSameDay + 86400 else targetSameDay
  Int.tdiv (targetTime - (timeNow : Int)) 60

/-- Embedding of `deferredOtaUpdateCallback` (`deferred_updates.c` lines
171-384).  `getUpdateDataOk` models the result test of
`SysEvent_Info_GetUpdateData`; `maxDeferral` is
`data.max_deferral_time_in_minutes`; `timeNow` is `time(NULL)`. -/
def deferredOtaUpdateCallback (ev : SysEventM) (status : SysEventStatusM)
    (getUpdateDataOk : Bool) (maxDeferral : Int) (timeNow : Nat)
    (s : OtaState) : OtaCallbackResult :=
  if ev ≠ SysEventM.updateReadyForInstall then
    ⟨s, none, some OtaExit.unexpectedEvent⟩
  else if getUpdateDataOk = false then
    ⟨s, none, some OtaExit.getUpdateEventFailed⟩
  else
    match status with
    | SysEventStatusM.pending =>
        if s.acceptOtaUpdate then
          ⟨{ s with otaUpdateInProgress := true, pendingOtaUpdate := false }, none, none⟩
        else
          let s1 := { s with otaUpdateInProgress := false, pendingOtaUpdate := true }
          let newDelayTime0 := s.deferredOtaUpdateTime
          let newDelayTime1 :=
            if newDelayTime0 = 0 then
              minutesUntilOtaTargetUtc timeNow s.otaTargetUtcHour s.otaTargetUtcMinute
            else newDelayTime0
          let newDelayTime :=
            if newDelayTime1 > maxDeferral then maxDeferral else newDelayTime1
          ⟨s1, some newDelayTime, none⟩
    | SysEventStatusM.final =>
        ⟨{ s with pendingOtaUpdate := false, otaUpdateInProgress := false },
          none, some OtaExit.finalUpdate⟩
    | SysEventStatusM.deferredSt =>
        let s1 := { s with pendingOtaUpdate := true, otaUpdateInProgress := false,
                           acceptOtaUpdate := true }
        ⟨s1, none, none⟩
    | SysEventStatusM.complete => ⟨s, none, none⟩
    | SysEventStatusM.invalid => ⟨s, none, some OtaExit.unexpectedStatus⟩

/-- Embedding of `deferredOtaUpdate_Init` (lines 124-156): restore the
configuration from mutable storage when it is readable, otherwise use
the defaults, and clear the status flags. -/
def deferredOtaUpdate_Init (stor : Option DelayTimeUTC) : OtaState :=
  match stor with
  | some d =>
      { deferredOtaUpdateTime := 0
        otaTargetUtcHour := d.OTATargetUtcHour
        otaTargetUtcMinute := d.OTATargetUtcMinute
        acceptOtaUpdate := d.ACCEPTOtaUpdate
        pendingOtaUpdate := false
        otaUpdateInProgress := false
        mutableStorage := stor }
  | none =>
      { deferredOtaUpdateTime := 0
        otaTargetUtcHour := 0
        otaTargetUtcMinute := 0
        acceptOtaUpdate := true
        pendingOtaUpdate := false
        otaUpdateInProgress := false
        mutableStorage := none }

/-- Embedding of `delayOtaUpdates` (lines 478-483); the argument is a
C `uint16_t`. -/
def delayOtaUpdates (pausePeriod : Nat) (s : OtaState) : OtaState :=
  { s with acceptOtaUpdate := false, deferredOtaUpdateTime := (pausePeriod : Int) }

/-- Embedding of `allowOtaUpdates` (lines 493-500); the
`SysEvent_ResumeEvent` call does not touch the static state. -/
def allowOtaUpdates (s : OtaState) : OtaState :=
  { s with acceptOtaUpdate := true, deferredOtaUpdateTime := 0 }

/-- Embedding of `OtaUpdateIsInProgress` (lines 505-507). -/
def OtaUpdateIsInProgress (s : OtaState) : Bool := s.otaUpdateInProgress

/-- Embedding of `OtaUpdateIsPending` (lines 512-514). -/
def OtaUpdateIsPending (s : OtaState) : Bool := s.pendingOtaUpdate

/-- One externally triggered operation on the deferred-update state:
a system-event callback with its environment inputs, or one of the
application-facing calls. -/
inductive OtaOp where
  | sysEvent (ev : SysEventM) (status : SysEventStatusM) (getUpdateDataOk : Bool)
      (maxDeferral : Int) (timeNow : Nat)
  | delay (pausePeriod : Nat)
  | allow
deriving DecidableEq, Repr

/-- Apply one operation to the state. -/
def runOtaOp (o : OtaOp) (s : OtaState) : OtaState :=
  match o with
  | OtaOp.sysEvent ev status ok maxDeferral timeNow =>
      (deferredOtaUpdateCallback ev status ok maxDeferral timeNow s).state
  | OtaOp.delay p => delayOtaUpdates p s
  | OtaOp.allow => allowOtaUpdates s

/-- Apply a sequence of operations, oldest first. -/
def runOtaOps (ops : List OtaOp) (s : OtaState) : OtaState :=
  ops.foldl (fun s o => runOtaOp o s) s

/-- Net effect of `WriteDelayTimeUTCToMutableFile` (lines 665-705) on the
mutable-storage contents: when the stored data already equals the data to
write nothing is written, otherwise the file is rewritten; either way the
file then holds `dataToWrite` (I/O failures are not modelled). -/
def WriteDelayTimeUTCToMutableFile (dataToWrite : DelayTimeUTC)
    (stor : Option DelayTimeUTC) : Option DelayTimeUTC :=
  match stor with
  | some existing => if existing = dataToWrite then stor else some dataToWrite
  | none => some dataToWrite

/-- Result of one run of `setOtaTargetUtcTime`: the new state, whether
`SysEvent_ResumeEvent` was called, and the reported-property string sent
back (`none` when the handler returned early on invalid input). -/
structure SetOtaTargetResult where
  state : OtaState
  resumed : Bool
  reported : Option String
deriving DecidableEq, Repr

/-- ASCII decimal digit test, as C `isdigit`. -/
def cIsDigit (c : Char) : Bool := '0' ≤ c ∧ c ≤ '9'

/-- Numeric value of an ASCII digit. -/
def digitVal (c : Char) : Nat := c.toNat - 48

/-- Common tail of `setOtaTargetUtcTime` (lines 633-659): persist the
current settings, resume a pending deferred event, and send the reported
property. -/
def commitOtaTargetSettings (s : OtaState) (ret : String) : SetOtaTargetResult :=
  let dataToWrite : DelayTimeUTC :=
    ⟨s.otaTargetUtcHour, s.otaTargetUtcMinute, s.acceptOtaUpdate⟩
  let s1 := { s with mutableStorage := WriteDelayTimeUTCToMutableFile dataToWrite s.mutableStorage }
  ⟨s1, s.pendingOtaUpdate, some ret⟩

/-- Embedding of `setOtaTargetUtcTime` (`deferred_updates.c` lines
528-659).  `twinValue` is the result of `json_object_get_string` on the
`otaTargetUtcTime` key: `none` when the key is absent or not a string.
The 16-byte `strncpy` into `tempTargetTime` makes the measured length
`min (length) 16`; the `returnString` copy happens before the colons are
overwritten, and a valid string is echoed with the seconds forced to
"00". -/
def setOtaTargetUtcTime (twinValue : Option String) (s : OtaState) : SetOtaTargetResult :=
  match twinValue with
  | none => commitOtaTargetSettings s ""
  | some str =>
      let stringSize := min str.length 16
      let cs := str.data
      if stringSize = 8 then
        if cs.getD 2 ' ' = ':' ∧ cs.getD 5 ' ' = ':' then
          if cIsDigit (cs.getD 0 ' ') ∧ cIsDigit (cs.getD 1 ' ') ∧
             cIsDigit (cs.getD 3 ' ') ∧ cIsDigit (cs.getD 4 ' ') then
            let tempHH : Nat := 10 * digitVal (cs.getD 0 ' ') + digitVal (cs.getD 1 ' ')
            if tempHH > 23 then ⟨s, false, none⟩
            else
              let tempMM : Nat := 10 * digitVal (cs.getD 3 ' ') + digitVal (cs.getD 4 ' ')
              if tempMM > 59 then ⟨s, false, none⟩
              else
                let s1 := { s with otaTargetUtcHour := (tempHH : Int),
                                   otaTargetUtcMinute := (tempMM : Int),
                                   acceptOtaUpdate := false,
                                   deferredOtaUpdateTime := 0 }
                commitOtaTargetSettings s1 (String.mk (cs.take 6 ++ ['0', '0']))
          else ⟨s, false, none⟩
        else ⟨s, false, none⟩
      else if stringSize = 0 then
        let s1 := { s with otaTargetUtcHour := 0, otaTargetUtcMinute := 0,
                           acceptOtaUpdate := true }
        commitOtaTargetSettings s1 ""
      else ⟨s, false, none⟩

/-- The validation predicate described for `otaTargetUtcTime` strings:
length exactly 8, colons at positions 2 and 5, digits in the HH and MM
positions, HH at most 23 and MM at most 59. -/
def validOtaTimeString (str : String) : Bool :=
  let cs := str.data
  str.length = 8 ∧ cs.getD 2 ' ' = ':' ∧ cs.getD 5 ' ' = ':' ∧
    cIsDigit (cs.getD 0 ' ') ∧ cIsDigit (cs.getD 1 ' ') ∧
    cIsDigit (cs.getD 3 ' ') ∧ cIsDigit (cs.getD 4 ' ') ∧
    10 * digitVal (cs.getD 0 ' ') + digitVal (cs.getD 1 ' ') ≤ 23 ∧
    10 * digitVal (cs.getD 3 ' ') + digitVal (cs.getD 4 ' ') ≤ 59

/-- Hour encoded by a valid `HH:MM:xx` string. -/
def otaHH (str : String) : Nat :=
  10 * digitVal (str.data.getD 0 ' ') + digitVal (str.data.getD 1 ' ')

/-- Minute encoded by a valid `HH:MM:xx` string. -/
def otaMM (str : String) : Nat :=
  10 * digitVal (str.data.getD 3 ' ') + digitVal (str.data.getD 4 ' ')

/-! ## JSON values and the parson accessors used by the twin code -/

/-- Parsed JSON values as produced by parson.  Numbers are stored as
exact rationals (parson keeps them as doubles; no claim depends on the
IEEE rounding of a literal). -/
inductive JVal where
  | jnull
  | jbool (b : Bool)
  | jnum (q : ℚ)
  | jstr (s : String)
  | jarr (items : List JVal)
  | jobj (fields : List (String × JVal))
deriving Repr

/-- A `JSON_Object *` is a field list; the NULL object used by the twin
callback when the payload root is not an object behaves exactly like an
empty field list under the accessors below. -/
abbrev JObj := List (String × JVal)

/-- Fields of a JSON value when it is an object (`json_value_get_object`
returns NULL otherwise, which the accessors treat as empty). -/
def JVal.objFields : JVal → JObj
  | JVal.jobj fields => fields
  | _ => []

/-- parson `json_object_has_value`: the key is present with any type. -/
def jsonHasValue (o : JObj) (key : String) : Bool := (o.lookup key).isSome

/-- parson `json_object_get_number`: the numeric value when the member
exists and is a number, otherwise 0. -/
def jsonGetNumber (o : JObj) (key : String) : ℚ :=
  match o.lookup key with
  | some (JVal.jnum q) => q
  | _ => 0

/-- parson `json_object_get_boolean`: 1 or 0 for a boolean member, -1
when the member is absent or not a boolean. -/
def jsonGetBoolean (o : JObj) (key : String) : Int :=
  match o.lookup key with
  | some (JVal.jbool b) => if b then 1 else 0
  | _ => -1

/-- parson `json_object_get_string`: the string when the member exists
and is a string, otherwise NULL (`none`). -/
def jsonGetString (o : JObj) (key : String) : Option String :=
  match o.lookup key with
  | some (JVal.jstr s) => some s
  | _ => none

/-! ## RSL10 device list (`rsl10.c` / `rsl10.h`) -/

/-- Mirror of `RSL10Device_t` (`rsl10.h` lines 99-130).  The
`authorizedBdAddress` and `isActive` fields are the ones accessed by
`rsl10AuthorizedDTFunction` in `device_twin.c`.  `lastAmbiantLight` is a
C `uint16_t`. -/
structure RSL10Device where
  bdAddress : String
  lastRssi : Int
  lastTemperature : CFloat
  lastHumidity : CFloat
  lastPressure : CFloat
  lastAmbiantLight : Nat
  lastSampleIndex : Nat
  lastsampleRate : Nat
  lastAccelRange : Nat
  lastDataType : Nat
  lastAccel_raw_x : CFloat
  lastAccel_raw_y : CFloat
  lastAccel_raw_z : CFloat
  lastOrientation_x : CFloat
  lastOrientation_y : CFloat
  lastOrientation_z : CFloat
  lastOrientation_w : CFloat
  lastBattery : CFloat
  authorizedBdAddress : String
  isActive : Bool
deriving DecidableEq, Repr

/-- Zero-initialized `RSL10Device_t`, as the static array slots start. -/
def initRSL10Device : RSL10Device where
  bdAddress := ""
  lastRssi := 0
  lastTemperature := some 0
  lastHumidity := some 0
  lastPressure := some 0
  lastAmbiantLight := 0
  lastSampleIndex := 0
  lastsampleRate := 0
  lastAccelRange := 0
  lastDataType := 0
  lastAccel_raw_x := some 0
  lastAccel_raw_y := some 0
  lastAccel_raw_z := some 0
  lastOrientation_x := some 0
  lastOrientation_y := some 0
  lastOrientation_z := some 0
  lastOrientation_w := some 0
  lastBattery := some 0
  authorizedBdAddress := ""
  isActive := false

/-- `MAX_RSL10_DEVICES` (`rsl10.h` line 93). -/
def MAX_RSL10_DEVICES : Nat := 10

/-- `RSL10_ADDRESS_LEN` (`rsl10.h` line 94). -/
def RSL10_ADDRESS_LEN : Nat := 18

/-- The RSL10 globals of `rsl10.c` (lines 10-13): the 10-slot device
array together with the device counter, the 10-slot authorized-address
array, and the current-device index.  The scratch global `bdAddress`
message buffer is passed explicitly where the code reads it. -/
structure Rsl10State where
  Rsl10DeviceList : List RSL10Device
  authorizedDeviceList : List String
  numRsl10DevicesInList : Nat
  currentRsl10DeviceIndex : Int
deriving DecidableEq, Repr

/-- Startup contents of the RSL10 globals: both arrays zero-filled. -/
def initRsl10State : Rsl10State where
  Rsl10DeviceList := List.replicate MAX_RSL10_DEVICES initRSL10Device
  authorizedDeviceList := List.replicate MAX_RSL10_DEVICES ""
  numRsl10DevicesInList := 0
  currentRsl10DeviceIndex := -1

/-- Embedding of `isDeviceAuthorized` (`rsl10.c` lines 365-373): an
18-byte `strncmp` of the candidate against every slot of
`authorizedDeviceList`. -/
def isDeviceAuthorized (deviceToCheck : String) (authList : List String) : Bool :=
  authList.any (fun a => cstrncmpZero a deviceToCheck RSL10_ADDRESS_LEN)

/-- Embedding of `getRsl10DeviceIndex` (lines 261-272): the first slot
below the device counter whose stored address matches the first
`strlen(Rsl10DeviceID)` bytes of the probe, or -1. -/
def getRsl10DeviceIndex (deviceId : String) (st : Rsl10State) : Int :=
  match (st.Rsl10DeviceList.take st.numRsl10DevicesInList).findIdx?
      (fun d => cstrncmpZero d.bdAddress deviceId deviceId.length) with
  | some i => (i : Int)
  | none => -1

/-- Embedding of `addRsl10DeviceToList` (lines 327-362).  The
authorization check reads the global `bdAddress` buffer
(`globalBdAddress` here) rather than the `newRsl10Address` parameter;
the only caller passes the global for both.  The C code assigns IEEE
`NAN` to the `uint16_t` ambient-light field: that float-to-unsigned
conversion is undefined in C and yields 0 on the target, which is the
value used here. -/
def addRsl10DeviceToList (globalBdAddress newRsl10Address : String)
    (st : Rsl10State) : Int × Rsl10State :=
  if isDeviceAuthorized globalBdAddress st.authorizedDeviceList = false then
    (-1, st)
  else if st.numRsl10DevicesInList = MAX_RSL10_DEVICES then
    (-1, st)
  else
    let newDeviceIndex := st.numRsl10DevicesInList
    let d := st.Rsl10DeviceList.getD newDeviceIndex initRSL10Device
    let d1 := { d with bdAddress := newRsl10Address
                       lastTemperature := (none : CFloat)
                       lastAmbiantLight := 0
                       lastHumidity := (none : CFloat)
                       lastPressure := (none : CFloat)
                       lastRssi := 32767 }
    ((newDeviceIndex : Int),
      { st with Rsl10DeviceList := st.Rsl10DeviceList.set newDeviceIndex d1
                numRsl10DevicesInList := newDeviceIndex + 1 })

/-! ### Message field decoding

The advertisement structs (`rsl10.h` lines 44-91) are packed character
layouts over the received UART string, so every field read is a read at
a fixed byte offset.  Reads past the end of a short-but-accepted message
land in the surrounding UART buffer; the model returns `' '` for them,
and no claim depends on those bytes. -/

/-- Value of an ASCII hex digit, or `none`. -/
def hexDigitVal (c : Char) : Option Nat :=
  if '0' ≤ c ∧ c ≤ '9' then some (c.toNat - 48)
  else if 'a' ≤ c ∧ c ≤ 'f' then some (c.toNat - 87)
  else if 'A' ≤ c ∧ c ≤ 'F' then some (c.toNat - 70)
  else none

/-- Embedding of `stringToInt(p, 2)` (`rsl10.c` lines 103-110): `strtol`
base 16 on two characters, i.e. the value of the longest hex-digit
prefix (0 when the first character is not a hex digit). -/
def stringToInt2 (c1 c2 : Char) : Nat :=
  match hexDigitVal c1 with
  | none => 0
  | some h1 =>
      match hexDigitVal c2 with
      | none => h1
      | some h2 => 16 * h1 + h2

/-- Two-character hex field at byte offset `off` of the message. -/
def hexByteAt (cs : List Char) (off : Nat) : Nat :=
  stringToInt2 (cs.getD off ' ') (cs.getD (off + 1) ' ')

/-- C cast to `int16_t` (twos-complement wrap, as on the target). -/
def toInt16 (n : Nat) : Int :=
  let r := n % 65536
  if r < 32768 then (r : Int) else (r : Int) - 65536

/-- C cast to `int8_t` (twos-complement wrap, as on the target). -/
def toInt8 (n : Nat) : Int :=
  let r := n % 256
  if r < 128 then (r : Int) else (r : Int) - 256

/-- Embedding of `atoi` on the three rssi characters (`getRxRssi`,
lines 221-228; the C buffer lacks its NUL terminator, so this assumes
the byte following it does not extend the number). -/
def atoi3 (a b c : Char) : Int :=
  let cs := [a, b, c].dropWhile (fun x => x = ' ')
  let digitsOf : List Char → Int := fun l =>
    (l.takeWhile Char.isDigit).foldl (fun acc x => acc * 10 + ((x.toNat : Int) - 48)) 0
  match cs with
  | '-' :: rest => -(digitsOf rest)
  | '+' :: rest => digitsOf rest
  | rest => digitsOf rest

/-- Embedding of `getBdAddress` (lines 204-218): the six address byte
pairs of the message (offsets 3..16) written in reverse pair order into
the dash-separated global template, producing `"xx-xx-xx-xx-xx-xx"`. -/
def extractBdAddress (cs : List Char) : String :=
  String.mk
    [cs.getD 13 ' ', cs.getD 14 ' ', '-',
     cs.getD 11 ' ', cs.getD 12 ' ', '-',
     cs.getD 9 ' ', cs.getD 10 ' ', '-',
     cs.getD 7 ' ', cs.getD 8 ' ', '-',
     cs.getD 5 ' ', cs.getD 6 ' ', '-',
     cs.getD 3 ' ', cs.getD 4 ' ']

/-- Update the device-array slot `i` (a `set` beyond the array length is
a no-op, which cannot happen for indices produced by the lookup/add
path). -/
def updateDeviceAt (i : Nat) (f : RSL10Device → RSL10Device) (st : Rsl10State) : Rsl10State :=
  { st with Rsl10DeviceList :=
      st.Rsl10DeviceList.set i (f (st.Rsl10DeviceList.getD i initRSL10Device)) }

/-- Embedding of `rsl10ProcessMovementMessage` (lines 127-150) on the
`Rsl10MotionMessage_t` layout: rssi at offset 44, sensor settings at 21,
raw acceleration pairs at 23/27/31 (low byte first), orientation bytes
at 35/37/39/41.  The float arithmetic follows `getAccelReadings` and
`getOrientation` with exact rationals:
`RAW_TO_MPS_SQUARED = 32768*9.81`, `MPS_SQUARED_TO_G = 0.102`,
`ORIENTATION_DIVISOR = 128`. -/
def rsl10ProcessMovementMessage (cs : List Char) (i : Nat) (st : Rsl10State) : Rsl10State :=
  updateDeviceAt i
    (fun d =>
      let sensorSettings := hexByteAt cs 21
      let d1 := { d with lastRssi := atoi3 (cs.getD 44 ' ') (cs.getD 45 ' ') (cs.getD 46 ' ')
                         lastsampleRate := sensorSettings / 16 % 16
                         lastAccelRange := sensorSettings / 4 % 4
                         lastDataType := sensorSettings % 4 }
      let range : ℚ := (d1.lastAccelRange : ℚ) * 4
      let accelOf : Nat → CFloat := fun off =>
        let raw := toInt16 (256 * hexByteAt cs (off + 2) + hexByteAt cs off)
        some ((raw : ℚ) / (32768 * (981 / 100)) * range * (102 / 1000))
      let orientOf : Nat → CFloat := fun off =>
        some ((toInt8 (hexByteAt cs off) : ℚ) / 128)
      { d1 with lastAccel_raw_x := accelOf 23
                lastAccel_raw_y := accelOf 27
                lastAccel_raw_z := accelOf 31
                lastOrientation_x := orientOf 35
                lastOrientation_y := orientOf 37
                lastOrientation_z := orientOf 39
                lastOrientation_w := orientOf 41 }) st

/-- Embedding of `rsl10ProcessEnvironmentalMessage` (lines 153-174) on
the `Rsl10EnvironmentalMessage_t` layout: rssi at offset 38, temperature
at 19, humidity at 23, pressure at 27 (all little-endian hex pairs,
divided by 100); `getAmbiantLight` is a no-op in the source. -/
def rsl10ProcessEnvironmentalMessage (cs : List Char) (i : Nat) (st : Rsl10State) : Rsl10State :=
  updateDeviceAt i
    (fun d =>
      { d with lastRssi := atoi3 (cs.getD 38 ' ') (cs.getD 39 ' ') (cs.getD 40 ' ')
               lastTemperature :=
                 some (((256 * hexByteAt cs 21 + hexByteAt cs 19 : Nat) : ℚ) / 100)
               lastHumidity :=
                 some (((256 * hexByteAt cs 25 + hexByteAt cs 23 : Nat) : ℚ) / 100)
               lastPressure :=
                 some (((65536 * hexByteAt cs 31 + 256 * hexByteAt cs 29
                         + hexByteAt cs 27 : Nat) : ℚ) / 100) }) st

/-- Embedding of `rsl10ProcessBatteryMessage` (lines 177-192) on the
`Rsl10BatteryMessage_t` layout: rssi at offset 22, battery at 17 with
the first hex pair as high byte, divided by 1000 for volts. -/
def rsl10ProcessBatteryMessage (cs : List Char) (i : Nat) (st : Rsl10State) : Rsl10State :=
  updateDeviceAt i
    (fun d =>
      { d with lastRssi := atoi3 (cs.getD 22 ' ') (cs.getD 23 ' ') (cs.getD 24 ' ')
               lastBattery :=
                 some (((256 * hexByteAt cs 17 + hexByteAt cs 19 : Nat) : ℚ) / 1000) }) st

/-- Index-resolution phase of `parseRsl10Message` (lines 57-76): find
the device by address, otherwise try to add it; `none` when the add
fails.  The global `currentRsl10DeviceIndex` assignments happen exactly
as in the source. -/
def rsl10ResolveIndex (addr : String) (st : Rsl10State) : Option (Nat × Rsl10State) :=
  let found := getRsl10DeviceIndex addr st
  if found = -1 then
    let st0 := { st with currentRsl10DeviceIndex := -1 }
    let r := addRsl10DeviceToList addr addr st0
    if r.fst = -1 then none
    else some (r.fst.toNat, { r.snd with currentRsl10DeviceIndex := r.fst })
  else some (found.toNat, { st with currentRsl10DeviceIndex := found })

/-- `MIN_RSL10_MSG_LENGTH` (`rsl10.c` line 23). -/
def MIN_RSL10_MSG_LENGTH : Nat := 25

/-- Embedding of `parseRsl10Message` (`rsl10.c` lines 20-100): reject
short messages, extract the 3-character identifier and the address,
reject unauthorized devices, resolve or add the device-list slot, then
dispatch on `"MSD"`/`"ESD"`/`"BAT"` (`strcmp` on the 3-character
identifier buffer). -/
def parseRsl10Message (msg : String) (st : Rsl10State) : Rsl10State :=
  if msg.length < MIN_RSL10_MSG_LENGTH then st
  else
    let cs := msg.data
    let messageID := String.mk (cs.take 3)
    let addr := extractBdAddress cs
    if isDeviceAuthorized addr st.authorizedDeviceList = false then st
    else
      match rsl10ResolveIndex addr st with
      | none => { st with currentRsl10DeviceIndex := -1 }
      | some (i, st1) =>
          if messageID = "MSD" then rsl10ProcessMovementMessage cs i st1
          else if messageID = "ESD" then rsl10ProcessEnvironmentalMessage cs i st1
          else if messageID = "BAT" then rsl10ProcessBatteryMessage cs i st1
          else st1

/-! ## Device-twin dispatch and marshalling (`device_twin.c` / `deviceTwin.h`) -/

/-- `data_type_t` (`deviceTwin.h` lines 33-38). -/
inductive DtType where
  | tInt
  | tFloat
  | tBool
  | tString
deriving DecidableEq, Repr

/-- A typed value as stored through a twin-table variable pointer. -/
inductive CValue where
  | vInt (n : Int)
  | vFloat (f : CFloat)
  | vBool (b : Bool)
  | vString (s : String)
deriving DecidableEq, Repr

/-- The `data_type_t` a stored value belongs to. -/
def CValue.typeOf : CValue → DtType
  | CValue.vInt _ => DtType.tInt
  | CValue.vFloat _ => DtType.tFloat
  | CValue.vBool _ => DtType.tBool
  | CValue.vString _ => DtType.tString

/-- `JSON_BUFFER_SIZE` (`deviceTwin.h` line 15). -/
def JSON_BUFFER_SIZE : Nat := 512

/-- `MAX_DEVICE_TWIN_PAYLOAD_SIZE` (`deviceTwin.h` line 17). -/
def MAX_DEVICE_TWIN_PAYLOAD_SIZE : Nat := 1024 + 1024

/-- Round the fraction `num / den` (`den` positive) to the nearest
integer, half up. -/
def roundHalfUpFrac (num den : Int) : Int := Int.fdiv (2 * num + den) (2 * den)

/-- Decimal rendering of a float by `%.2f`: two fractional digits.
The exact decimal printf produces is an IEEE detail; the model rounds
the exact rational to the nearest hundredth (ties away from zero).  No
claim compares two float renderings. -/
def formatFixed2 (q : ℚ) : String :=
  let c : Int :=
    if q.num < 0 then -(roundHalfUpFrac (100 * (-q.num)) (q.den : Int))
    else roundHalfUpFrac (100 * q.num) (q.den : Int)
  let sign := if c < 0 then "-" else ""
  let a := c.natAbs
  let frac := a % 100
  sign ++ toString (a / 100) ++ "." ++ (if frac < 10 then "0" else "") ++ toString frac

/-- The `{"%s": ...}` bodies built from `cstrDeviceTwinJsonInteger`,
`cstrDeviceTwinJsonFloat`, `cstrDeviceTwinJsonBool` and
`cstrDeviceTwinJsonString` (`deviceTwin.h` lines 19-22) as selected by
the `switch (type)` of `checkAndUpdateDeviceTwin`; the RSL10 sample
builds without `USE_PNP` (the flag is commented out in the
`build_options.h` of the sibling samples).  A type tag that does not
match the value tag corresponds to reading the variable through a
mismatched pointer cast in C; the twin handlers never do that. -/
def jsonBodyFor (t : DtType) (property : String) (v : CValue) : String :=
  match t, v with
  | DtType.tInt, CValue.vInt n =>
      "\x7b\"" ++ property ++ "\": " ++ toString n ++ "\x7d"
  | DtType.tFloat, CValue.vFloat f =>
      "\x7b\"" ++ property ++ "\": " ++
        (match f with
         | some q => formatFixed2 q
         | none => "nan") ++ "\x7d"
  | DtType.tBool, CValue.vBool b =>
      "\x7b\"" ++ property ++ "\": " ++ (if b then "true" else "false") ++ "\x7d"
  | DtType.tString, CValue.vString s =>
      "\x7b\"" ++ property ++ "\": \"" ++ s ++ "\"\x7d"
  | _, _ => ""

/-- Result of one `checkAndUpdateDeviceTwin` run: whether `snprintf` was
executed with a NULL destination buffer, and the strings handed to
`TwinReportState`. -/
structure DTReport where
  nullFormatted : Bool
  sent : List String
deriving DecidableEq, Repr

/-- Embedding of `checkAndUpdateDeviceTwin` (`device_twin.c` lines
270-353).  `allocOk` is whether the `malloc(JSON_BUFFER_SIZE)` call
succeeded.  Note the allocation-failure path only logs: the function
does not return, so with a non-NULL property the `snprintf` still runs
on the NULL buffer (undefined behaviour in C; the model records that the
formatting and the `TwinReportState` call are reached). -/
def checkAndUpdateDeviceTwin (allocOk : Bool) (property : Option String)
    (v : CValue) (t : DtType) : DTReport :=
  match property with
  | none => ⟨false, []⟩
  | some key =>
      let rendered := jsonBodyFor t key v
      let nJsonLength := rendered.length
      let buffer := strTake rendered (JSON_BUFFER_SIZE - 1)
      ⟨!allocOk, if nJsonLength > 0 then [buffer] else []⟩

/-- Embedding of `genericIntDTFunction` (lines 97-108): store the
desired number as an `int` and report it back with the integer JSON
body. -/
def genericIntDTFunction (key : String) (desiredProperties : JObj)
    (allocOk : Bool) : CValue × DTReport :=
  let n : Int := ratTruncToInt (jsonGetNumber desiredProperties key)
  (CValue.vInt n, checkAndUpdateDeviceTwin allocOk (some key) (CValue.vInt n) DtType.tInt)

/-- Embedding of `genericFloatDTFunction` (lines 114-125). -/
def genericFloatDTFunction (key : String) (desiredProperties : JObj)
    (allocOk : Bool) : CValue × DTReport :=
  let f : CFloat := some (jsonGetNumber desiredProperties key)
  (CValue.vFloat f, checkAndUpdateDeviceTwin allocOk (some key) (CValue.vFloat f) DtType.tFloat)

/-- Embedding of `genericBoolDTFunction` (lines 130-142): the
`(bool)json_object_get_boolean(...)` cast maps any nonzero return (so
also the -1 error value) to `true`. -/
def genericBoolDTFunction (key : String) (desiredProperties : JObj)
    (allocOk : Bool) : CValue × DTReport :=
  let b : Bool := jsonGetBoolean desiredProperties key ≠ 0
  (CValue.vBool b, checkAndUpdateDeviceTwin allocOk (some key) (CValue.vBool b) DtType.tBool)

/-- Embedding of `genericStringDTFunction` (lines 182-203): copy the
desired string, or the empty string when the member is NULL. -/
def genericStringDTFunction (key : String) (desiredProperties : JObj)
    (allocOk : Bool) : CValue × DTReport :=
  let s : String :=
    match jsonGetString desiredProperties key with
    | some s => s
    | none => ""
  (CValue.vString s, checkAndUpdateDeviceTwin allocOk (some key) (CValue.vString s) DtType.tString)

/-- Embedding of `rsl10AuthorizedDTFunction` (lines 209-239): the entry
passes the address of an `RSL10Device_t`; the handler overwrites its
`authorizedBdAddress` with the desired string (empty when the member was
removed), clears `isActive`, and reports the new address as a string. -/
def rsl10AuthorizedDTFunction (key : String) (desiredProperties : JObj)
    (allocOk : Bool) (i : Nat) (st : Rsl10State) : Rsl10State × DTReport :=
  let newAddr : String :=
    match jsonGetString desiredProperties key with
    | some s => s
    | none => ""
  let d := st.Rsl10DeviceList.getD i initRSL10Device
  let d1 := { d with authorizedBdAddress := newAddr, isActive := false }
  ({ st with Rsl10DeviceList := st.Rsl10DeviceList.set i d1 },
    checkAndUpdateDeviceTwin allocOk (some key) (CValue.vString newAddr) DtType.tString)

/-- The application variables the RSL10 twin table points at.
`requireRsl10Authorization` is declared outside the sources in view; it
is written through a `bool *` by its handler. -/
structure TwinVars where
  requireRsl10Authorization : Bool
  telemetryPollPeriod : Int
  rsl10 : Rsl10State
deriving DecidableEq, Repr

/-- Startup twin variables. -/
def initTwinVars : TwinVars where
  requireRsl10Authorization := false
  telemetryPollPeriod := 0
  rsl10 := initRsl10State

/-- The `.twinVar` target of a twin-table entry. -/
inductive TwinVarRef where
  | requireAuth
  | pollPeriod
  | rsl10Device (i : Nat)
deriving DecidableEq, Repr

/-- The `.twinHandler` function pointer of a twin-table entry. -/
inductive HandlerTag where
  | genericIntH
  | genericFloatH
  | genericBoolH
  | genericStringH
  | telemetryTimerH
  | rsl10AuthorizedH
deriving DecidableEq, Repr

/-- Mirror of `twin_t` as initialized in `twinArray`: every entry of the
RSL10 table has `.twinFd = NULL` and
`.twinGPIO = NO_GPIO_ASSOCIATED_WITH_TWIN` (-1) and
`.active_high = true`. -/
structure TwinEntry where
  twinKey : String
  twinVar : TwinVarRef
  twinGpio : Int
  twinType : DtType
  active_high : Bool
  handlerTag : HandlerTag
deriving DecidableEq, Repr

/-- Placeholder entry for out-of-range array reads. -/
def defTwinEntry : TwinEntry :=
  ⟨"", TwinVarRef.requireAuth, -1, DtType.tInt, true, HandlerTag.genericIntH⟩

/-- One `authorizedMacN` row of the table. -/
def authorizedMacEntry (n : Nat) : TwinEntry :=
  ⟨"authorizedMac" ++ toString n, TwinVarRef.rsl10Device (n - 1), -1,
    DtType.tString, true, HandlerTag.rsl10AuthorizedH⟩

/-- Embedding of `twinArray` (`device_twin.c` lines 75-88).  Note the
first row: its declared `.twinType` is `TYPE_INT` while its handler is
`genericBoolDTFunction`. -/
def twinArray : List TwinEntry :=
  ⟨"requireRsl10Authorization", TwinVarRef.requireAuth, -1, DtType.tInt, true,
    HandlerTag.genericBoolH⟩ ::
  ⟨"telemetryPollTime", TwinVarRef.pollPeriod, -1, DtType.tInt, true,
    HandlerTag.telemetryTimerH⟩ ::
  (List.range 10).map (fun k => authorizedMacEntry (k + 1))

/-- `twinArraySize` (`device_twin.c` line 91). -/
def twinArraySize : Nat := twinArray.length

/-- Write a `bool` through the variable pointer of an entry.  The table
pairs bool-storing handlers only with `requireAuth`; other targets would
be a mismatched pointer write and do not occur. -/
def writeBoolVar (r : TwinVarRef) (b : Bool) (st : TwinVars) : TwinVars :=
  match r with
  | TwinVarRef.requireAuth => { st with requireRsl10Authorization := b }
  | _ => st

/-- Write an `int` through the variable pointer of an entry; the table
pairs int-storing handlers only with `pollPeriod`. -/
def writeIntVar (r : TwinVarRef) (n : Int) (st : TwinVars) : TwinVars :=
  match r with
  | TwinVarRef.pollPeriod => { st with telemetryPollPeriod := n }
  | _ => st

/-- Run the handler of one table entry on the desired-properties object,
as `twinArray[i].twinHandler(&twinArray[i], desiredProperties)` does.
`telemetryTimerDTFunction` (lines 241-261) also re-arms the telemetry
timer, a side effect outside the modelled state. -/
def runTwinHandler (e : TwinEntry) (desiredProperties : JObj) (allocOk : Bool)
    (st : TwinVars) : TwinVars × DTReport :=
  match e.handlerTag with
  | HandlerTag.genericIntH =>
      let r := genericIntDTFunction e.twinKey desiredProperties allocOk
      (match r.fst with
       | CValue.vInt n => writeIntVar e.twinVar n st
       | _ => st, r.snd)
  | HandlerTag.genericFloatH =>
      -- no float-typed variable exists in this table; the stored value
      -- would go through a `float *`
      (st, (genericFloatDTFunction e.twinKey desiredProperties allocOk).snd)
  | HandlerTag.genericBoolH =>
      let r := genericBoolDTFunction e.twinKey desiredProperties allocOk
      (match r.fst with
       | CValue.vBool b => writeBoolVar e.twinVar b st
       | _ => st, r.snd)
  | HandlerTag.genericStringH =>
      -- no plain string variable exists in this table
      (st, (genericStringDTFunction e.twinKey desiredProperties allocOk).snd)
  | HandlerTag.telemetryTimerH =>
      let n : Int := ratTruncToInt (jsonGetNumber desiredProperties e.twinKey)
      (writeIntVar e.twinVar n st,
        checkAndUpdateDeviceTwin allocOk (some e.twinKey) (CValue.vInt n) DtType.tInt)
  | HandlerTag.rsl10AuthorizedH =>
      match e.twinVar with
      | TwinVarRef.rsl10Device i =>
          let r := rsl10AuthorizedDTFunction e.twinKey desiredProperties allocOk i st.rsl10
          ({ st with rsl10 := r.fst }, r.snd)
      | _ => (st, ⟨false, []⟩)

/-- The table-walking loop of `DeviceTwinCallback` (lines 403-413):
call the handler of every entry whose key is present. -/
def dispatchTwinTable (entries : List TwinEntry) (desiredProperties : JObj)
    (allocOk : Bool) (st : TwinVars) : TwinVars × List String × List String :=
  match entries with
  | [] => (st, [], [])
  | e :: rest =>
      if jsonHasValue desiredProperties e.twinKey then
        let r := runTwinHandler e desiredProperties allocOk st
        let t := dispatchTwinTable rest desiredProperties allocOk r.fst
        (t.fst, e.twinKey :: t.snd.fst, r.snd.sent ++ t.snd.snd)
      else dispatchTwinTable rest desiredProperties allocOk st

/-- The desired-properties object selected by `DeviceTwinCallback`
(lines 389-393): `json_object_dotget_object(rootObject, "desired")`
returns the member only when it exists with object type, otherwise NULL,
and the code then falls back to the root object. -/
def desiredFieldsOf (root : JVal) : JObj :=
  match root.objFields.lookup "desired" with
  | some (JVal.jobj fields) => fields
  | _ => root.objFields

/-- Exit code set by the twin callback. -/
inductive TwinExit where
  | payloadSizeTooLarge
deriving DecidableEq, Repr

/-- Result of one `DeviceTwinCallback` run. -/
structure DTCallbackResult where
  vars : TwinVars
  desiredVersion : Int
  invokedKeys : List String
  reports : List String
  exitSet : Option TwinExit
deriving DecidableEq, Repr

/-- Embedding of `DeviceTwinCallback` (`device_twin.c` lines 359-418).
`payloadSize` is the byte size of the received payload and `parsed` the
result of `json_parse_string` on it (`none` when it is not valid JSON).
`allocOk` is threaded to the handlers for their report buffers. -/
def DeviceTwinCallback (payloadSize : Nat) (parsed : Option JVal) (allocOk : Bool)
    (desiredVersion : Int) (st : TwinVars) : DTCallbackResult :=
  if payloadSize > MAX_DEVICE_TWIN_PAYLOAD_SIZE then
    ⟨st, desiredVersion, [], [], some TwinExit.payloadSizeTooLarge⟩
  else
    match parsed with
    | none => ⟨st, desiredVersion, [], [], none⟩
    | some root =>
        let desiredProperties := desiredFieldsOf root
        let dv :=
          if jsonHasValue desiredProperties "$version" then
            ratTruncToInt (jsonGetNumber desiredProperties "$version")
          else desiredVersion
        let t := dispatchTwinTable twinArray desiredProperties allocOk st
        ⟨t.fst, dv, t.snd.fst, t.snd.snd, none⟩

/-- Desired-properties object as the specification sentence words it,
for comparison with the code: "the value of the desired member of the payload
when present, otherwise the root object of the payload".  This follows the
sentence, not the code: it does not require the member to be an object. -/
def specDesiredFields (root : JVal) : JObj :=
  match root.objFields.lookup "desired" with
  | some v => v.objFields
  | none => root.objFields

/-- The environmental-data fields of a device agree. -/
def envFieldsEq (d e : RSL10Device) : Prop :=
  d.lastTemperature = e.lastTemperature ∧ d.lastHumidity = e.lastHumidity ∧
    d.lastPressure = e.lastPressure ∧ d.lastAmbiantLight = e.lastAmbiantLight

/-- The movement-data fields of a device agree. -/
def movFieldsEq (d e : RSL10Device) : Prop :=
  d.lastSampleIndex = e.lastSampleIndex ∧ d.lastsampleRate = e.lastsampleRate ∧
    d.lastAccelRange = e.lastAccelRange ∧ d.lastDataType = e.lastDataType ∧
    d.lastAccel_raw_x = e.lastAccel_raw_x ∧ d.lastAccel_raw_y = e.lastAccel_raw_y ∧
    d.lastAccel_raw_z = e.lastAccel_raw_z ∧
    d.lastOrientation_x = e.lastOrientation_x ∧ d.lastOrientation_y = e.lastOrientation_y ∧
    d.lastOrientation_z = e.lastOrientation_z ∧ d.lastOrientation_w = e.lastOrientation_w

/-- The battery-data field of a device agrees. -/
def batFieldEq (d e : RSL10Device) : Prop := d.lastBattery = e.lastBattery

/-- Apply a sequence of `rsl10AuthorizedDTFunction` calls (slot index,
twin key, desired-properties object), oldest first, to the RSL10
globals. -/
def runAuthTwinOps (ops : List (Nat × String × JObj)) (st : Rsl10State) : Rsl10State :=
  ops.foldl (fun s o => (rsl10AuthorizedDTFunction o.snd.fst o.snd.snd true o.fst s).fst) st

/-- The deferral period the Pending branch computes before the cap
(`deferred_updates.c` lines 244-293): the stored
`deferredOtaUpdateTime` when non-zero, otherwise the minutes until the
configured UTC target time. -/
def otaRequestedDelay (s : OtaState) (timeNow : Nat) : Int :=
  if s.deferredOtaUpdateTime ≠ 0 then s.deferredOtaUpdateTime
  else minutesUntilOtaTargetUtc timeNow s.otaTargetUtcHour s.otaTargetUtcMinute

/-! ### Concrete inputs used by witnesses and counterexamples -/

/-- A deferring state with a 02:30 UTC target. -/
def c2DeferState : OtaState :=
  ⟨0, 2, 30, false, false, false, none⟩

/-- A state to exercise `setOtaTargetUtcTime`. -/
def c3BaseState : OtaState :=
  ⟨5, 1, 2, true, false, false, some ⟨1, 2, true⟩⟩

/-- A twin payload whose `desired` member is present but not an object,
while a table key sits in the root object. -/
def c1Payload : JVal :=
  JVal.jobj [("desired", JVal.jnum 5), ("telemetryPollTime", JVal.jnum 1)]

/-- A twin payload carrying one table key at the root. -/
def c1PlainPayload : JVal := JVal.jobj [("telemetryPollTime", JVal.jnum 1)]

/-- The dash-formatted address extracted from the sample message below. -/
def sampleAuthAddr : String := "23-45-67-89-AB-00"

/-- RSL10 globals with the sample address authorized in slot 0. -/
def rsl10AuthState : Rsl10State :=
  { initRsl10State with authorizedDeviceList := sampleAuthAddr :: List.replicate 9 "" }

/-- A well-formed environmental advertisement for the sample device
(the layout documented at `rsl10.h` line 51). -/
def esdSampleMsg : String := "ESD00AB896745230100CC094F12B8069BFFFF -50"

/-! ## Helper lemmas -/

/-- Setting one slot leaves every other slot unchanged. -/
theorem listSet_getD_ne {α : Type} (l : List α) (n j : Nat) (x d : α) (h : j ≠ n) :
    (l.set n x).getD j d = l.getD j d := by
  induction l generalizing n j with
  | nil => simp
  | cons a t ih =>
      cases n with
      | zero =>
          cases j with
          | zero => exact absurd rfl h
          | succ j2 => simp [List.set]
      | succ n2 =>
          cases j with
          | zero => simp [List.set]
          | succ j2 =>
              simp only [List.set, List.getD_cons_succ]
              exact ih n2 j2 (fun hh => h (by omega))

/-- Setting an in-range slot stores the value there. -/
theorem listSet_getD_self {α : Type} (l : List α) (n : Nat) (x d : α) (h : n < l.length) :
    (l.set n x).getD n d = x := by
  induction l generalizing n with
  | nil => simp at h
  | cons a t ih =>
      cases n with
      | zero => simp [List.set]
      | succ n2 =>
          simp only [List.set, List.getD_cons_succ]
          exact ih n2 (by simpa using h)

/-- Setting an out-of-range slot is a no-op. -/
theorem listSet_of_length_le {α : Type} (l : List α) (n : Nat) (x : α) (h : l.length ≤ n) :
    l.set n x = l := by
  induction l generalizing n with
  | nil => rfl
  | cons a t ih =>
      cases n with
      | zero => simp at h
      | succ n2 => simp only [List.set]; rw [ih n2 (by simpa using h)]

/-- Reading an out-of-range slot gives the default. -/
theorem listGetD_of_length_le {α : Type} (l : List α) (n : Nat) (d : α) (h : l.length ≤ n) :
    l.getD n d = d := by
  induction l generalizing n with
  | nil => simp
  | cons a t ih =>
      cases n with
      | zero => simp at h
      | succ n2 => simp only [List.getD_cons_succ]; exact ih n2 (by simpa using h)

/-- `snprintf` truncation does not alter a string that fits the buffer. -/
theorem strTake_of_le (s : String) (n : Nat) (h : s.length ≤ n) : strTake s n = s := by
  unfold strTake
  have hd : s.data.length ≤ n := h
  rw [List.take_of_length_le hd]

/-- The mutable file always holds the written record afterwards. -/
theorem writeDelayTimeUTC_result (d : DelayTimeUTC) (stor : Option DelayTimeUTC) :
    WriteDelayTimeUTCToMutableFile d stor = some d := by
  cases stor with
  | none => rfl
  | some e =>
      unfold WriteDelayTimeUTCToMutableFile
      by_cases h : e = d
      · simp [h]
      · simp [h]

/-- One deferred-update operation preserves the mutual exclusion of the
pending and in-progress flags. -/
theorem runOtaOp_flags (o : OtaOp) (s : OtaState)
    (h : (s.pendingOtaUpdate && s.otaUpdateInProgress) = false) :
    ((runOtaOp o s).pendingOtaUpdate && (runOtaOp o s).otaUpdateInProgress) = false := by
  cases o with
  | delay p => simpa [runOtaOp, delayOtaUpdates] using h
  | allow => simpa [runOtaOp, allowOtaUpdates] using h
  | sysEvent ev status ok m t =>
      cases ev with
      | otherEvent => simpa [runOtaOp, deferredOtaUpdateCallback] using h
      | updateReadyForInstall =>
          cases ok with
          | false => simpa [runOtaOp, deferredOtaUpdateCallback] using h
          | true =>
              cases status with
              | invalid => simpa [runOtaOp, deferredOtaUpdateCallback] using h
              | pending =>
                  by_cases ha : s.acceptOtaUpdate <;>
                    simp [runOtaOp, deferredOtaUpdateCallback, ha]
              | final => simp [runOtaOp, deferredOtaUpdateCallback]
              | deferredSt => simp [runOtaOp, deferredOtaUpdateCallback]
              | complete => simpa [runOtaOp, deferredOtaUpdateCallback] using h

/-- Mutual exclusion of the flags is preserved along any run. -/
theorem runOtaOps_flags (ops : List OtaOp) (s : OtaState)
    (h : (s.pendingOtaUpdate && s.otaUpdateInProgress) = false) :
    ((runOtaOps ops s).pendingOtaUpdate && (runOtaOps ops s).otaUpdateInProgress) = false := by
  induction ops generalizing s with
  | nil => exact h
  | cons o rest ih => exact ih (runOtaOp o s) (runOtaOp_flags o s h)

/-! ## Claim theorems -/

/-- C4: starting from the state established by `deferredOtaUpdate_Init`
(for any mutable-storage contents), after any sequence of OTA
system-event callbacks, `delayOtaUpdates` and `allowOtaUpdates` calls,
the polling functions `OtaUpdateIsPending` and `OtaUpdateIsInProgress`
never both return true. -/
theorem otaFlags_never_both_true (stor : Option DelayTimeUTC) (ops : List OtaOp) :
    (OtaUpdateIsPending (runOtaOps ops (deferredOtaUpdate_Init stor)) &&
      OtaUpdateIsInProgress (runOtaOps ops (deferredOtaUpdate_Init stor))) = false := by
  have hinit : ((deferredOtaUpdate_Init stor).pendingOtaUpdate &&
      (deferredOtaUpdate_Init stor).otaUpdateInProgress) = false := by
    cases stor <;> simp [deferredOtaUpdate_Init]
  exact runOtaOps_flags ops (deferredOtaUpdate_Init stor) hinit

/-- C2: on a Pending OTA event received while updates are deferred
(`acceptOtaUpdate = false`), the deferral passed to
`SysEvent_DeferEvent` is the stored `deferredOtaUpdateTime` when
non-zero, otherwise the minutes from the current UTC time until the
configured target time (rolled to the next day when the target hour is
below the current hour), capped so that it never exceeds the
`max_deferral_time_in_minutes`. -/
theorem pendingDeferral_request (s : OtaState) (maxDeferral : Int) (timeNow : Nat)
    (hacc : s.acceptOtaUpdate = false) :
    (deferredOtaUpdateCallback SysEventM.updateReadyForInstall SysEventStatusM.pending true
        maxDeferral timeNow s).deferRequest =
      some (if otaRequestedDelay s timeNow > maxDeferral then maxDeferral
            else otaRequestedDelay s timeNow) ∧
    (if otaRequestedDelay s timeNow > maxDeferral then maxDeferral
     else otaRequestedDelay s timeNow) ≤ maxDeferral := by
  constructor
  · simp only [deferredOtaUpdateCallback, hacc, otaRequestedDelay]
    by_cases h0 : s.deferredOtaUpdateTime = 0 <;> simp [h0]
  · by_cases hgt : otaRequestedDelay s timeNow > maxDeferral
    · simp [hgt]
    · simp only [hgt, if_false]
      omega

/-- Witness for `pendingDeferral_request`: a deferring state with a
zero stored delay and a 02:30 UTC target, polled at 03:00 UTC, requests
a 1410-minute deferral, below the 10000-minute maximum. -/
theorem pendingDeferral_request_witness :
    c2DeferState.acceptOtaUpdate = false ∧
    (deferredOtaUpdateCallback SysEventM.updateReadyForInstall SysEventStatusM.pending true
        10000 10800 c2DeferState).deferRequest = some 1410 ∧
    (1410 : Int) ≤ 10000 := by
  have h := pendingDeferral_request c2DeferState 10000 10800 rfl
  refine ⟨rfl, ?_, by norm_num⟩
  rw [h.1]
  rfl

/-- C5: a device-twin payload larger than
`MAX_DEVICE_TWIN_PAYLOAD_SIZE` (2048 bytes) makes the callback set the
payload-too-large exit code and return without invoking any table
handler, without sending any report, and without modifying
`desiredVersion` or any variable referenced by the twin table. -/
theorem deviceTwinCallback_payload_too_large (payloadSize : Nat) (parsed : Option JVal)
    (allocOk : Bool) (dv : Int) (st : TwinVars)
    (h : payloadSize > MAX_DEVICE_TWIN_PAYLOAD_SIZE) :
    DeviceTwinCallback payloadSize parsed allocOk dv st =
      ⟨st, dv, [], [], some TwinExit.payloadSizeTooLarge⟩ := by
  simp [DeviceTwinCallback, h]

/-- Witness for `deviceTwinCallback_payload_too_large` at a 2049-byte
payload. -/
theorem deviceTwinCallback_payload_too_large_witness :
    2049 > MAX_DEVICE_TWIN_PAYLOAD_SIZE ∧
    DeviceTwinCallback 2049 (some c1PlainPayload) true 7 initTwinVars =
      ⟨initTwinVars, 7, [], [], some TwinExit.payloadSizeTooLarge⟩ :=
  ⟨by decide,
    deviceTwinCallback_payload_too_large 2049 (some c1PlainPayload) true 7 initTwinVars
      (by decide)⟩

/-- C9: any sequence of `authorizedMacN` twin updates handled by
`rsl10AuthorizedDTFunction` leaves `authorizedDeviceList` untouched, so
`isDeviceAuthorized` answers exactly as before: the handler writes the
`Rsl10DeviceList` entries while the authorization check reads only the
`authorizedDeviceList` array. -/
theorem authTwin_preserves_authorization (ops : List (Nat × String × JObj))
    (addr : String) (st : Rsl10State) :
    (runAuthTwinOps ops st).authorizedDeviceList = st.authorizedDeviceList ∧
    isDeviceAuthorized addr (runAuthTwinOps ops st).authorizedDeviceList =
      isDeviceAuthorized addr st.authorizedDeviceList := by
  have step : ∀ (o : Nat × String × JObj) (s : Rsl10State),
      (rsl10AuthorizedDTFunction o.snd.fst o.snd.snd true o.fst s).fst.authorizedDeviceList =
        s.authorizedDeviceList := by
    intro o s
    simp [rsl10AuthorizedDTFunction]
  have frame : ∀ (l : List (Nat × String × JObj)) (s : Rsl10State),
      (runAuthTwinOps l s).authorizedDeviceList = s.authorizedDeviceList := by
    intro l
    induction l with
    | nil => intro s; rfl
    | cons o rest ih =>
        intro s
        show (runAuthTwinOps rest _).authorizedDeviceList = _
        rw [ih, step]
  exact ⟨frame ops st, by rw [frame ops st]⟩

/-- C10-related evaluation: when the `malloc(JSON_BUFFER_SIZE)` in
`checkAndUpdateDeviceTwin` fails, the function still reaches the
`snprintf` with the NULL buffer and still hands the report to
`TwinReportState` — the error is logged but the function does not
return. -/
theorem checkAndUpdateDeviceTwin_mallocFail_still_reports :
    checkAndUpdateDeviceTwin false (some "telemetryPollTime") (CValue.vInt 5) DtType.tInt =
      ⟨true, ["\x7b\"telemetryPollTime\": 5\x7d"]⟩ := by
  rfl

/-- C3: a non-empty `otaTargetUtcTime` string failing validation (length
not 8, missing colons at positions 2 and 5, non-digit HH/MM characters,
HH above 23 or MM above 59) leaves the target hour and minute,
`acceptOtaUpdate`, `deferredOtaUpdateTime` and mutable storage — indeed
the whole state — unchanged, with no resume and no report; a valid
`HH:MM:xx` string installs HH/MM, clears `acceptOtaUpdate`, zeroes
`deferredOtaUpdateTime` and persists the settings; the empty string
resets the target to 0:0 and re-enables updates. -/
theorem setOtaTargetUtcTime_spec (s : OtaState) (str : String) :
    (str ≠ "" → validOtaTimeString str = false →
      setOtaTargetUtcTime (some str) s = ⟨s, false, none⟩) ∧
    (validOtaTimeString str = true →
      setOtaTargetUtcTime (some str) s =
        ⟨{ s with otaTargetUtcHour := (otaHH str : Int),
                  otaTargetUtcMinute := (otaMM str : Int),
                  acceptOtaUpdate := false,
                  deferredOtaUpdateTime := 0,
                  mutableStorage := some ⟨(otaHH str : Int), (otaMM str : Int), false⟩ },
          s.pendingOtaUpdate, some (String.mk (str.data.take 6 ++ ['0', '0']))⟩) ∧
    ((setOtaTargetUtcTime (some "") s).state.otaTargetUtcHour = 0 ∧
     (setOtaTargetUtcTime (some "") s).state.otaTargetUtcMinute = 0 ∧
     (setOtaTargetUtcTime (some "") s).state.acceptOtaUpdate = true ∧
     (setOtaTargetUtcTime (some "") s).state.deferredOtaUpdateTime =
       s.deferredOtaUpdateTime) := by
  refine ⟨?_, ?_, ?_⟩
  · -- invalid non-empty strings: every early `return` leaves the state alone
    intro hne hval
    simp only [setOtaTargetUtcTime]
    by_cases h8 : min str.length 16 = 8
    · rw [if_pos h8]
      have hlen : str.length = 8 := by
        rcases le_or_lt str.length 16 with h | h
        · rwa [min_eq_left h] at h8
        · rw [min_eq_right (le_of_lt h)] at h8; omega
      by_cases hc : (str.data.getD 2 ' ' = ':' ∧ str.data.getD 5 ' ' = ':')
      · rw [if_pos hc]
        by_cases hd : (cIsDigit (str.data.getD 0 ' ') = true ∧
            cIsDigit (str.data.getD 1 ' ') = true ∧
            cIsDigit (str.data.getD 3 ' ') = true ∧ cIsDigit (str.data.getD 4 ' ') = true)
        · rw [if_pos hd]
          by_cases hh : 10 * digitVal (str.data.getD 0 ' ') +
              digitVal (str.data.getD 1 ' ') > 23
          · rw [if_pos hh]
          · rw [if_neg hh]
            by_cases hm : 10 * digitVal (str.data.getD 3 ' ') +
                digitVal (str.data.getD 4 ' ') > 59
            · rw [if_pos hm]
            · exfalso
              have hvt : validOtaTimeString str = true := by
                simp only [validOtaTimeString, decide_eq_true_eq]
                exact ⟨hlen, hc.1, hc.2, hd.1, hd.2.1, hd.2.2.1, hd.2.2.2,
                  by omega, by omega⟩
              rw [hvt] at hval
              exact absurd hval (by decide)
        · rw [if_neg hd]
      · rw [if_neg hc]
    · rw [if_neg h8]
      have h0 : ¬(min str.length 16 = 0) := by
        intro hz
        apply hne
        have hl0 : str.length = 0 := by
          rcases le_or_lt str.length 16 with h | h
          · rwa [min_eq_left h] at hz
          · rw [min_eq_right (le_of_lt h)] at hz; omega
        cases str with
        | mk dataL =>
            have : dataL = [] := List.length_eq_zero.mp hl0
            rw [this]
      rw [if_neg h0]
  · -- valid strings: install, clear the flags, persist
    intro hval
    have hp := of_decide_eq_true hval
    obtain ⟨hlen, hc2, hc5, hd0, hd1, hd3, hd4, hhh, hmm⟩ := hp
    simp only [setOtaTargetUtcTime]
    have h8 : min str.length 16 = 8 := by rw [hlen]; decide
    rw [if_pos h8, if_pos ⟨hc2, hc5⟩, if_pos ⟨hd0, hd1, hd3, hd4⟩,
      if_neg (by omega : ¬(10 * digitVal (str.data.getD 0 ' ') +
        digitVal (str.data.getD 1 ' ') > 23)),
      if_neg (by omega : ¬(10 * digitVal (str.data.getD 3 ' ') +
        digitVal (str.data.getD 4 ' ') > 59))]
    simp only [commitOtaTargetSettings, writeDelayTimeUTC_result, otaHH, otaMM]
  · -- the empty string: disable deferring
    simp [setOtaTargetUtcTime, commitOtaTargetSettings]

/-- Witness for `setOtaTargetUtcTime_spec`: the valid string
`"13:02:59"` installs 13:02 and persists it; the invalid string
`"1:12:00"` (length 7) leaves the state untouched. -/
theorem setOtaTargetUtcTime_spec_witness :
    validOtaTimeString "13:02:59" = true ∧
    setOtaTargetUtcTime (some "13:02:59") c3BaseState =
      ⟨⟨0, 13, 2, false, false, false, some ⟨13, 2, false⟩⟩, false, some "13:02:00"⟩ ∧
    ("1:12:00" ≠ "" ∧ validOtaTimeString "1:12:00" = false ∧
      setOtaTargetUtcTime (some "1:12:00") c3BaseState = ⟨c3BaseState, false, none⟩) :=
  ⟨by decide, (setOtaTargetUtcTime_spec c3BaseState "13:02:59").2.1 (by decide),
    by decide, by decide,
    (setOtaTargetUtcTime_spec c3BaseState "1:12:00").1 (by decide) (by decide)⟩

/-- C8 (amended): `addRsl10DeviceToList` never grows the list beyond
`MAX_RSL10_DEVICES`; when the device is unauthorized or the list is full
it returns -1 leaving counter and list contents unchanged; otherwise it
returns the new index, bumps the counter by exactly one, and the new
entry gets the address, NAN markers for temperature/humidity/pressure,
0 for the ambient-light field (the C source assigns `NAN` to that
`uint16_t`) and `INT16_MAX` for the RSSI — while the battery, movement
and authorization fields of the slot keep their previous values. -/
theorem addRsl10DeviceToList_spec (g a : String) (st : Rsl10State) :
    ((isDeviceAuthorized g st.authorizedDeviceList = false ∨
        st.numRsl10DevicesInList = MAX_RSL10_DEVICES) →
      addRsl10DeviceToList g a st = (-1, st)) ∧
    (isDeviceAuthorized g st.authorizedDeviceList = true →
     st.numRsl10DevicesInList ≠ MAX_RSL10_DEVICES →
      (addRsl10DeviceToList g a st).fst = (st.numRsl10DevicesInList : Int) ∧
      (addRsl10DeviceToList g a st).snd.numRsl10DevicesInList =
        st.numRsl10DevicesInList + 1 ∧
      (addRsl10DeviceToList g a st).snd.authorizedDeviceList = st.authorizedDeviceList ∧
      (∀ j, j ≠ st.numRsl10DevicesInList →
        (addRsl10DeviceToList g a st).snd.Rsl10DeviceList.getD j initRSL10Device =
          st.Rsl10DeviceList.getD j initRSL10Device) ∧
      (st.numRsl10DevicesInList < st.Rsl10DeviceList.length →
        ((addRsl10DeviceToList g a st).snd.Rsl10DeviceList.getD
            st.numRsl10DevicesInList initRSL10Device).bdAddress = a ∧
        ((addRsl10DeviceToList g a st).snd.Rsl10DeviceList.getD
            st.numRsl10DevicesInList initRSL10Device).lastTemperature = none ∧
        ((addRsl10DeviceToList g a st).snd.Rsl10DeviceList.getD
            st.numRsl10DevicesInList initRSL10Device).lastHumidity = none ∧
        ((addRsl10DeviceToList g a st).snd.Rsl10DeviceList.getD
            st.numRsl10DevicesInList initRSL10Device).lastPressure = none ∧
        ((addRsl10DeviceToList g a st).snd.Rsl10DeviceList.getD
            st.numRsl10DevicesInList initRSL10Device).lastAmbiantLight = 0 ∧
        ((addRsl10DeviceToList g a st).snd.Rsl10DeviceList.getD
            st.numRsl10DevicesInList initRSL10Device).lastRssi = 32767 ∧
        movFieldsEq ((addRsl10DeviceToList g a st).snd.Rsl10DeviceList.getD
            st.numRsl10DevicesInList initRSL10Device)
          (st.Rsl10DeviceList.getD st.numRsl10DevicesInList initRSL10Device) ∧
        batFieldEq ((addRsl10DeviceToList g a st).snd.Rsl10DeviceList.getD
            st.numRsl10DevicesInList initRSL10Device)
          (st.Rsl10DeviceList.getD st.numRsl10DevicesInList initRSL10Device))) ∧
    (st.numRsl10DevicesInList ≤ MAX_RSL10_DEVICES →
      (addRsl10DeviceToList g a st).snd.numRsl10DevicesInList ≤ MAX_RSL10_DEVICES) := by
  refine ⟨?_, ?_, ?_⟩
  · rintro (hauth | hfull)
    · simp [addRsl10DeviceToList, hauth]
    · unfold addRsl10DeviceToList
      by_cases hauth : isDeviceAuthorized g st.authorizedDeviceList = false
      · rw [if_pos hauth]
      · rw [if_neg hauth, if_pos hfull]
  · intro hauth hfull
    have hna : ¬(isDeviceAuthorized g st.authorizedDeviceList = false) := by
      rw [hauth]; decide
    unfold addRsl10DeviceToList
    rw [if_neg hna, if_neg hfull]
    refine ⟨rfl, rfl, rfl, ?_, ?_⟩
    · intro j hj
      exact listSet_getD_ne _ _ _ _ _ hj
    · intro hlt
      rw [listSet_getD_self _ _ _ _ hlt]
      refine ⟨rfl, rfl, rfl, rfl, rfl, rfl, ?_, rfl⟩
      exact ⟨rfl, rfl, rfl, rfl, rfl, rfl, rfl, rfl, rfl, rfl, rfl⟩
  · intro hle
    unfold addRsl10DeviceToList
    by_cases hauth : isDeviceAuthorized g st.authorizedDeviceList = false
    · rw [if_pos hauth]; exact hle
    · by_cases hfull : st.numRsl10DevicesInList = MAX_RSL10_DEVICES
      · rw [if_neg hauth, if_pos hfull]; exact hle
      · rw [if_neg hauth, if_neg hfull]
        have : st.numRsl10DevicesInList < MAX_RSL10_DEVICES := by
          rcases Nat.lt_or_ge st.numRsl10DevicesInList MAX_RSL10_DEVICES with h | h
          · exact h
          · exact absurd (Nat.le_antisymm hle h) hfull
        simpa using this

/-- Witness for `addRsl10DeviceToList_spec`: adding the authorized
sample device to the empty list returns index 0 and bumps the counter;
adding it to an all-unauthorized list fails without touching the
state. -/
theorem addRsl10DeviceToList_spec_witness :
    isDeviceAuthorized sampleAuthAddr rsl10AuthState.authorizedDeviceList = true ∧
    rsl10AuthState.numRsl10DevicesInList ≠ MAX_RSL10_DEVICES ∧
    (addRsl10DeviceToList sampleAuthAddr sampleAuthAddr rsl10AuthState).fst = 0 ∧
    (addRsl10DeviceToList sampleAuthAddr sampleAuthAddr
        rsl10AuthState).snd.numRsl10DevicesInList = 1 ∧
    (isDeviceAuthorized sampleAuthAddr initRsl10State.authorizedDeviceList = false ∧
      addRsl10DeviceToList sampleAuthAddr sampleAuthAddr initRsl10State =
        (-1, initRsl10State)) := by
  have h := addRsl10DeviceToList_spec sampleAuthAddr sampleAuthAddr rsl10AuthState
  have h2 := (h.2.1 (by decide) (by decide))
  refine ⟨by decide, by decide, ?_, ?_, by decide, ?_⟩
  · rw [h2.1]; decide
  · rw [h2.2.1]; decide
  · exact (addRsl10DeviceToList_spec sampleAuthAddr sampleAuthAddr initRsl10State).1
      (Or.inl (by decide))

/-- C8 counterexample: the new slot created for the sample device keeps
battery reading 0.0 — the zero-initialized float of the slot — rather than
the NAN not-yet-reported marker, so not every sensor reading of a new
entry is initialized to a marker. -/
theorem addRsl10DeviceToList_battery_not_marker :
    (addRsl10DeviceToList sampleAuthAddr sampleAuthAddr rsl10AuthState).fst = 0 ∧
    ((addRsl10DeviceToList sampleAuthAddr sampleAuthAddr
        rsl10AuthState).snd.Rsl10DeviceList.getD 0 initRSL10Device).lastBattery = some 0 ∧
    ((addRsl10DeviceToList sampleAuthAddr sampleAuthAddr
        rsl10AuthState).snd.Rsl10DeviceList.getD 0 initRSL10Device).lastBattery ≠
      (none : CFloat) := by
  refine ⟨by decide, by decide, by decide⟩

/-- The JSON body built for a value whose tag matches the requested
type is never empty (it always carries at least the braces). -/
theorem jsonBodyFor_length_pos (t : DtType) (key : String) (v : CValue)
    (hm : v.typeOf = t) : 0 < (jsonBodyFor t key v).length := by
  cases v with
  | vInt n =>
      cases t <;> simp_all [CValue.typeOf]
      simp only [jsonBodyFor, String.length_append]
      have h1 : (0 : Nat) < ("\x7b\"" : String).length := by decide
      omega
  | vFloat f =>
      cases t <;> simp_all [CValue.typeOf]
      simp only [jsonBodyFor, String.length_append]
      have h1 : (0 : Nat) < ("\x7b\"" : String).length := by decide
      omega
  | vBool b =>
      cases t <;> simp_all [CValue.typeOf]
      simp only [jsonBodyFor, String.length_append]
      have h1 : (0 : Nat) < ("\x7b\"" : String).length := by decide
      omega
  | vString s =>
      cases t <;> simp_all [CValue.typeOf]
      simp only [jsonBodyFor, String.length_append]
      have h1 : (0 : Nat) < ("\x7b\"" : String).length := by decide
      omega

/-- C6 (amended): each generic typed handler stores the received
desired-property value according to the own data type of the handler and
sends exactly one reported-property update whose body is the
`{"key": value}` rendering of the key and the newly stored value for
that type (when the report buffer allocation succeeds and the rendering
fits the 512-byte buffer). -/
theorem genericHandlers_store_and_report (key : String) (o : JObj) (q : ℚ) (b : Bool)
    (s : String) :
    (o.lookup key = some (JVal.jnum q) →
      (jsonBodyFor DtType.tInt key (CValue.vInt (ratTruncToInt q))).length ≤
        JSON_BUFFER_SIZE - 1 →
      genericIntDTFunction key o true =
        (CValue.vInt (ratTruncToInt q),
          ⟨false, [jsonBodyFor DtType.tInt key (CValue.vInt (ratTruncToInt q))]⟩)) ∧
    (o.lookup key = some (JVal.jnum q) →
      (jsonBodyFor DtType.tFloat key (CValue.vFloat (some q))).length ≤
        JSON_BUFFER_SIZE - 1 →
      genericFloatDTFunction key o true =
        (CValue.vFloat (some q),
          ⟨false, [jsonBodyFor DtType.tFloat key (CValue.vFloat (some q))]⟩)) ∧
    (o.lookup key = some (JVal.jbool b) →
      (jsonBodyFor DtType.tBool key (CValue.vBool b)).length ≤ JSON_BUFFER_SIZE - 1 →
      genericBoolDTFunction key o true =
        (CValue.vBool b, ⟨false, [jsonBodyFor DtType.tBool key (CValue.vBool b)]⟩)) ∧
    (o.lookup key = some (JVal.jstr s) →
      (jsonBodyFor DtType.tString key (CValue.vString s)).length ≤ JSON_BUFFER_SIZE - 1 →
      genericStringDTFunction key o true =
        (CValue.vString s, ⟨false, [jsonBodyFor DtType.tString key (CValue.vString s)]⟩)) := by
  refine ⟨?_, ?_, ?_, ?_⟩
  · intro hl hfit
    have hpos := jsonBodyFor_length_pos DtType.tInt key (CValue.vInt (ratTruncToInt q)) rfl
    simp only [genericIntDTFunction, jsonGetNumber, hl, checkAndUpdateDeviceTwin]
    rw [if_pos hpos, strTake_of_le _ _ hfit]
    rfl
  · intro hl hfit
    have hpos := jsonBodyFor_length_pos DtType.tFloat key (CValue.vFloat (some q)) rfl
    simp only [genericFloatDTFunction, jsonGetNumber, hl, checkAndUpdateDeviceTwin]
    rw [if_pos hpos, strTake_of_le _ _ hfit]
    rfl
  · intro hl hfit
    have hsb : (decide (jsonGetBoolean o key ≠ 0)) = b := by
      cases b <;> simp [jsonGetBoolean, hl]
    have hpos := jsonBodyFor_length_pos DtType.tBool key (CValue.vBool b) rfl
    simp only [genericBoolDTFunction, hsb, checkAndUpdateDeviceTwin]
    rw [if_pos hpos, strTake_of_le _ _ hfit]
    rfl
  · intro hl hfit
    have hpos := jsonBodyFor_length_pos DtType.tString key (CValue.vString s) rfl
    simp only [genericStringDTFunction, jsonGetString, hl, checkAndUpdateDeviceTwin]
    rw [if_pos hpos, strTake_of_le _ _ hfit]
    rfl

/-- Witness for `genericHandlers_store_and_report` on the key `"k"`
with number 3, boolean true and string `"v"`. -/
theorem genericHandlers_store_and_report_witness :
    genericIntDTFunction "k" [("k", JVal.jnum 3)] true =
      (CValue.vInt (ratTruncToInt 3),
        ⟨false, [jsonBodyFor DtType.tInt "k" (CValue.vInt (ratTruncToInt 3))]⟩) ∧
    genericFloatDTFunction "k" [("k", JVal.jnum 3)] true =
      (CValue.vFloat (some 3),
        ⟨false, [jsonBodyFor DtType.tFloat "k" (CValue.vFloat (some 3))]⟩) ∧
    genericBoolDTFunction "k" [("k", JVal.jbool true)] true =
      (CValue.vBool true, ⟨false, [jsonBodyFor DtType.tBool "k" (CValue.vBool true)]⟩) ∧
    genericStringDTFunction "k" [("k", JVal.jstr "v")] true =
      (CValue.vString "v", ⟨false, [jsonBodyFor DtType.tString "k" (CValue.vString "v")]⟩) :=
  ⟨(genericHandlers_store_and_report "k" [("k", JVal.jnum 3)] 3 true "v").1 rfl (by decide),
    (genericHandlers_store_and_report "k" [("k", JVal.jnum 3)] 3 true "v").2.1 rfl (by decide),
    (genericHandlers_store_and_report "k" [("k", JVal.jbool true)] 3 true "v").2.2.1 rfl
      (by decide),
    (genericHandlers_store_and_report "k" [("k", JVal.jstr "v")] 3 true "v").2.2.2 rfl
      (by decide)⟩

/-- C6 counterexample: the first `twinArray` row declares
`TYPE_INT` but is handled by `genericBoolDTFunction`, which stores a
boolean — not a value of the declared twin type of the entry. -/
theorem twinArray_head_type_mismatch :
    (twinArray.getD 0 defTwinEntry).twinType = DtType.tInt ∧
    (twinArray.getD 0 defTwinEntry).handlerTag = HandlerTag.genericBoolH ∧
    CValue.typeOf
        (genericBoolDTFunction (twinArray.getD 0 defTwinEntry).twinKey
          [((twinArray.getD 0 defTwinEntry).twinKey, JVal.jbool true)] true).fst ≠
      DtType.tInt := by
  refine ⟨by decide, by decide, by decide⟩

/-- The table walk invokes exactly the entries whose key is present in
the desired-properties object, in table order. -/
theorem dispatchTwinTable_invokedKeys (entries : List TwinEntry) (o : JObj)
    (allocOk : Bool) (st : TwinVars) :
    (dispatchTwinTable entries o allocOk st).snd.fst =
      (entries.filter (fun e => jsonHasValue o e.twinKey)).map (fun e => e.twinKey) := by
  induction entries generalizing st with
  | nil => rfl
  | cons e rest ih =>
      by_cases h : jsonHasValue o e.twinKey = true
      · simp [dispatchTwinTable, h, ih]
      · rw [Bool.not_eq_true] at h
        simp [dispatchTwinTable, h, ih]

/-- C1 (amended): for a payload within the size limit that parses as
JSON, the handler of a table entry is invoked exactly when its `twinKey`
appears in the desired-properties object — the `desired` member when it
is present with object value, otherwise the root object — and every
invoked key belongs to the table, so payload keys outside the table
trigger no handler. -/
theorem deviceTwinCallback_dispatch (payloadSize : Nat) (root : JVal) (allocOk : Bool)
    (dv : Int) (st : TwinVars) (hsize : payloadSize ≤ MAX_DEVICE_TWIN_PAYLOAD_SIZE) :
    (∀ e ∈ twinArray,
      (e.twinKey ∈ (DeviceTwinCallback payloadSize (some root) allocOk dv st).invokedKeys ↔
        jsonHasValue (desiredFieldsOf root) e.twinKey = true)) ∧
    (∀ k ∈ (DeviceTwinCallback payloadSize (some root) allocOk dv st).invokedKeys,
      ∃ e, e ∈ twinArray ∧ e.twinKey = k) := by
  have hns : ¬(payloadSize > MAX_DEVICE_TWIN_PAYLOAD_SIZE) := by omega
  have hinv : (DeviceTwinCallback payloadSize (some root) allocOk dv st).invokedKeys =
      (twinArray.filter (fun e => jsonHasValue (desiredFieldsOf root) e.twinKey)).map
        (fun e => e.twinKey) := by
    simp only [DeviceTwinCallback, if_neg hns]
    exact dispatchTwinTable_invokedKeys twinArray (desiredFieldsOf root) allocOk st
  constructor
  · intro e he
    rw [hinv]
    constructor
    · intro hk
      rw [List.mem_map] at hk
      obtain ⟨e2, he2, hkey⟩ := hk
      rw [List.mem_filter] at he2
      rw [← hkey]
      exact he2.2
    · intro hv
      rw [List.mem_map]
      exact ⟨e, List.mem_filter.mpr ⟨he, hv⟩, rfl⟩
  · intro k hk
    rw [hinv] at hk
    rw [List.mem_map] at hk
    obtain ⟨e2, he2, hkey⟩ := hk
    exact ⟨e2, (List.mem_filter.mp he2).1, hkey⟩

/-- Witness for `deviceTwinCallback_dispatch`: a 60-byte payload
carrying only `telemetryPollTime` at its root invokes the handler
of that entry. -/
theorem deviceTwinCallback_dispatch_witness :
    60 ≤ MAX_DEVICE_TWIN_PAYLOAD_SIZE ∧
    "telemetryPollTime" ∈
      (DeviceTwinCallback 60 (some c1PlainPayload) true 0 initTwinVars).invokedKeys :=
  ⟨by decide,
    ((deviceTwinCallback_dispatch 60 c1PlainPayload true 0 initTwinVars (by decide)).1
        (twinArray.getD 1 defTwinEntry) (by decide)).mpr (by decide)⟩

/-- C1 counterexample: when the `desired` member of the payload is present
but is not an object, the code dispatches on the root object, so a
handler fires although its key does not appear in the value of the
`desired` member (the desired-properties object as the claim words
it). -/
theorem deviceTwinCallback_desired_nonobject_mismatch :
    "telemetryPollTime" ∈
      (DeviceTwinCallback 60 (some c1Payload) true 0 initTwinVars).invokedKeys ∧
    jsonHasValue (specDesiredFields c1Payload) "telemetryPollTime" = false := by
  refine ⟨by decide, by decide⟩

/-- Frame of a movement message: only slot `i` changes, and there only
rssi and the movement fields; the environmental and battery data of the
slot survive. -/
theorem movementUpdate_frame (cs : List Char) (i : Nat) (st : Rsl10State) :
    (rsl10ProcessMovementMessage cs i st).authorizedDeviceList = st.authorizedDeviceList ∧
    (rsl10ProcessMovementMessage cs i st).numRsl10DevicesInList = st.numRsl10DevicesInList ∧
    (rsl10ProcessMovementMessage cs i st).currentRsl10DeviceIndex =
      st.currentRsl10DeviceIndex ∧
    (∀ j, j ≠ i → (rsl10ProcessMovementMessage cs i st).Rsl10DeviceList.getD j initRSL10Device
      = st.Rsl10DeviceList.getD j initRSL10Device) ∧
    envFieldsEq ((rsl10ProcessMovementMessage cs i st).Rsl10DeviceList.getD i initRSL10Device)
      (st.Rsl10DeviceList.getD i initRSL10Device) ∧
    batFieldEq ((rsl10ProcessMovementMessage cs i st).Rsl10DeviceList.getD i initRSL10Device)
      (st.Rsl10DeviceList.getD i initRSL10Device) := by
  refine ⟨rfl, rfl, rfl, ?_, ?_⟩
  · intro j hj
    exact listSet_getD_ne _ _ _ _ _ hj
  · rcases Nat.lt_or_ge i st.Rsl10DeviceList.length with hlt | hge
    · show envFieldsEq ((st.Rsl10DeviceList.set i _).getD i initRSL10Device) _ ∧
        batFieldEq ((st.Rsl10DeviceList.set i _).getD i initRSL10Device) _
      rw [listSet_getD_self _ _ _ _ hlt]
      exact ⟨⟨rfl, rfl, rfl, rfl⟩, rfl⟩
    · show envFieldsEq ((st.Rsl10DeviceList.set i _).getD i initRSL10Device) _ ∧
        batFieldEq ((st.Rsl10DeviceList.set i _).getD i initRSL10Device) _
      rw [listSet_of_length_le _ _ _ hge]
      exact ⟨⟨rfl, rfl, rfl, rfl⟩, rfl⟩

/-- Frame of an environmental message: only slot `i` changes, and there
only rssi and the environmental fields; movement and battery data of
the slot survive. -/
theorem environmentalUpdate_frame (cs : List Char) (i : Nat) (st : Rsl10State) :
    (rsl10ProcessEnvironmentalMessage cs i st).authorizedDeviceList =
      st.authorizedDeviceList ∧
    (rsl10ProcessEnvironmentalMessage cs i st).numRsl10DevicesInList =
      st.numRsl10DevicesInList ∧
    (rsl10ProcessEnvironmentalMessage cs i st).currentRsl10DeviceIndex =
      st.currentRsl10DeviceIndex ∧
    (∀ j, j ≠ i →
      (rsl10ProcessEnvironmentalMessage cs i st).Rsl10DeviceList.getD j initRSL10Device
        = st.Rsl10DeviceList.getD j initRSL10Device) ∧
    movFieldsEq
      ((rsl10ProcessEnvironmentalMessage cs i st).Rsl10DeviceList.getD i initRSL10Device)
      (st.Rsl10DeviceList.getD i initRSL10Device) ∧
    batFieldEq
      ((rsl10ProcessEnvironmentalMessage cs i st).Rsl10DeviceList.getD i initRSL10Device)
      (st.Rsl10DeviceList.getD i initRSL10Device) := by
  refine ⟨rfl, rfl, rfl, ?_, ?_⟩
  · intro j hj
    exact listSet_getD_ne _ _ _ _ _ hj
  · rcases Nat.lt_or_ge i st.Rsl10DeviceList.length with hlt | hge
    · show movFieldsEq ((st.Rsl10DeviceList.set i _).getD i initRSL10Device) _ ∧
        batFieldEq ((st.Rsl10DeviceList.set i _).getD i initRSL10Device) _
      rw [listSet_getD_self _ _ _ _ hlt]
      exact ⟨⟨rfl, rfl, rfl, rfl, rfl, rfl, rfl, rfl, rfl, rfl, rfl⟩, rfl⟩
    · show movFieldsEq ((st.Rsl10DeviceList.set i _).getD i initRSL10Device) _ ∧
        batFieldEq ((st.Rsl10DeviceList.set i _).getD i initRSL10Device) _
      rw [listSet_of_length_le _ _ _ hge]
      exact ⟨⟨rfl, rfl, rfl, rfl, rfl, rfl, rfl, rfl, rfl, rfl, rfl⟩, rfl⟩

/-- Frame of a battery message: only slot `i` changes, and there only
rssi and the battery field; environmental and movement data of the slot
survive. -/
theorem batteryUpdate_frame (cs : List Char) (i : Nat) (st : Rsl10State) :
    (rsl10ProcessBatteryMessage cs i st).authorizedDeviceList = st.authorizedDeviceList ∧
    (rsl10ProcessBatteryMessage cs i st).numRsl10DevicesInList = st.numRsl10DevicesInList ∧
    (rsl10ProcessBatteryMessage cs i st).currentRsl10DeviceIndex =
      st.currentRsl10DeviceIndex ∧
    (∀ j, j ≠ i → (rsl10ProcessBatteryMessage cs i st).Rsl10DeviceList.getD j initRSL10Device
      = st.Rsl10DeviceList.getD j initRSL10Device) ∧
    envFieldsEq ((rsl10ProcessBatteryMessage cs i st).Rsl10DeviceList.getD i initRSL10Device)
      (st.Rsl10DeviceList.getD i initRSL10Device) ∧
    movFieldsEq ((rsl10ProcessBatteryMessage cs i st).Rsl10DeviceList.getD i initRSL10Device)
      (st.Rsl10DeviceList.getD i initRSL10Device) := by
  refine ⟨rfl, rfl, rfl, ?_, ?_⟩
  · intro j hj
    exact listSet_getD_ne _ _ _ _ _ hj
  · rcases Nat.lt_or_ge i st.Rsl10DeviceList.length with hlt | hge
    · show envFieldsEq ((st.Rsl10DeviceList.set i _).getD i initRSL10Device) _ ∧
        movFieldsEq ((st.Rsl10DeviceList.set i _).getD i initRSL10Device) _
      rw [listSet_getD_self _ _ _ _ hlt]
      exact ⟨⟨rfl, rfl, rfl, rfl⟩,
        rfl, rfl, rfl, rfl, rfl, rfl, rfl, rfl, rfl, rfl, rfl⟩
    · show envFieldsEq ((st.Rsl10DeviceList.set i _).getD i initRSL10Device) _ ∧
        movFieldsEq ((st.Rsl10DeviceList.set i _).getD i initRSL10Device) _
      rw [listSet_of_length_le _ _ _ hge]
      exact ⟨⟨rfl, rfl, rfl, rfl⟩,
        rfl, rfl, rfl, rfl, rfl, rfl, rfl, rfl, rfl, rfl, rfl⟩

/-- C7: `parseRsl10Message` leaves the device state untouched for every
message shorter than 25 characters and for every message whose
extracted address is not authorized; for an authorized message it
dispatches on the 3-character identifier, touching only the matching
matching slot — its movement fields (with the message rssi) for `MSD`,
environmental fields for `ESD`, battery for `BAT` — and for any other
identifier no sensor field at all beyond the possible addition of the
device to the list. -/
theorem parseRsl10Message_spec (msg : String) (st : Rsl10State) (i : Nat)
    (st1 : Rsl10State) :
    (msg.length < MIN_RSL10_MSG_LENGTH → parseRsl10Message msg st = st) ∧
    (MIN_RSL10_MSG_LENGTH ≤ msg.length →
      isDeviceAuthorized (extractBdAddress msg.data) st.authorizedDeviceList = false →
      parseRsl10Message msg st = st) ∧
    (MIN_RSL10_MSG_LENGTH ≤ msg.length →
      isDeviceAuthorized (extractBdAddress msg.data) st.authorizedDeviceList = true →
      rsl10ResolveIndex (extractBdAddress msg.data) st = none →
      parseRsl10Message msg st = { st with currentRsl10DeviceIndex := -1 }) ∧
    (MIN_RSL10_MSG_LENGTH ≤ msg.length →
      isDeviceAuthorized (extractBdAddress msg.data) st.authorizedDeviceList = true →
      rsl10ResolveIndex (extractBdAddress msg.data) st = some (i, st1) →
      ((parseRsl10Message msg st).authorizedDeviceList = st1.authorizedDeviceList ∧
       (parseRsl10Message msg st).numRsl10DevicesInList = st1.numRsl10DevicesInList ∧
       (∀ j, j ≠ i → (parseRsl10Message msg st).Rsl10DeviceList.getD j initRSL10Device =
          st1.Rsl10DeviceList.getD j initRSL10Device) ∧
       (String.mk (msg.data.take 3) = "MSD" →
          envFieldsEq ((parseRsl10Message msg st).Rsl10DeviceList.getD i initRSL10Device)
              (st1.Rsl10DeviceList.getD i initRSL10Device) ∧
            batFieldEq ((parseRsl10Message msg st).Rsl10DeviceList.getD i initRSL10Device)
              (st1.Rsl10DeviceList.getD i initRSL10Device)) ∧
       (String.mk (msg.data.take 3) = "ESD" →
          movFieldsEq ((parseRsl10Message msg st).Rsl10DeviceList.getD i initRSL10Device)
              (st1.Rsl10DeviceList.getD i initRSL10Device) ∧
            batFieldEq ((parseRsl10Message msg st).Rsl10DeviceList.getD i initRSL10Device)
              (st1.Rsl10DeviceList.getD i initRSL10Device)) ∧
       (String.mk (msg.data.take 3) = "BAT" →
          envFieldsEq ((parseRsl10Message msg st).Rsl10DeviceList.getD i initRSL10Device)
              (st1.Rsl10DeviceList.getD i initRSL10Device) ∧
            movFieldsEq ((parseRsl10Message msg st).Rsl10DeviceList.getD i initRSL10Device)
              (st1.Rsl10DeviceList.getD i initRSL10Device)) ∧
       (String.mk (msg.data.take 3) ≠ "MSD" → String.mk (msg.data.take 3) ≠ "ESD" →
          String.mk (msg.data.take 3) ≠ "BAT" → parseRsl10Message msg st = st1))) := by
  refine ⟨?_, ?_, ?_, ?_⟩
  · intro h
    simp only [parseRsl10Message]
    rw [if_pos h]
  · intro hlen hauth
    simp only [parseRsl10Message]
    rw [if_neg (Nat.not_lt.mpr hlen), if_pos hauth]
  · intro hlen hauth hres
    have hna : ¬(isDeviceAuthorized (extractBdAddress msg.data) st.authorizedDeviceList
        = false) := by rw [hauth]; decide
    simp only [parseRsl10Message]
    rw [if_neg (Nat.not_lt.mpr hlen), if_neg hna, hres]
  · intro hlen hauth hres
    have hna : ¬(isDeviceAuthorized (extractBdAddress msg.data) st.authorizedDeviceList
        = false) := by rw [hauth]; decide
    have hform : parseRsl10Message msg st =
        (if String.mk (msg.data.take 3) = "MSD" then
          rsl10ProcessMovementMessage msg.data i st1
        else if String.mk (msg.data.take 3) = "ESD" then
          rsl10ProcessEnvironmentalMessage msg.data i st1
        else if String.mk (msg.data.take 3) = "BAT" then
          rsl10ProcessBatteryMessage msg.data i st1
        else st1) := by
      simp only [parseRsl10Message]
      rw [if_neg (Nat.not_lt.mpr hlen), if_neg hna, hres]
    by_cases hm : String.mk (msg.data.take 3) = "MSD"
    · rw [hform, if_pos hm]
      have hf := movementUpdate_frame msg.data i st1
      refine ⟨hf.1, hf.2.1, hf.2.2.2.1, ?_, ?_, ?_, ?_⟩
      · intro _; exact hf.2.2.2.2
      · intro he; exact absurd (hm.symm.trans he) (by decide)
      · intro hb; exact absurd (hm.symm.trans hb) (by decide)
      · intro hc; exact absurd hm hc
    · by_cases he : String.mk (msg.data.take 3) = "ESD"
      · rw [hform, if_neg hm, if_pos he]
        have hf := environmentalUpdate_frame msg.data i st1
        refine ⟨hf.1, hf.2.1, hf.2.2.2.1, ?_, ?_, ?_, ?_⟩
        · intro hm2; exact absurd (he.symm.trans hm2) (by decide)
        · intro _; exact hf.2.2.2.2
        · intro hb; exact absurd (he.symm.trans hb) (by decide)
        · intro _ hc; exact absurd he hc
      · by_cases hb : String.mk (msg.data.take 3) = "BAT"
        · rw [hform, if_neg hm, if_neg he, if_pos hb]
          have hf := batteryUpdate_frame msg.data i st1
          refine ⟨hf.1, hf.2.1, hf.2.2.2.1, ?_, ?_, ?_, ?_⟩
          · intro hm2; exact absurd (hb.symm.trans hm2) (by decide)
          · intro he2; exact absurd (hb.symm.trans he2) (by decide)
          · intro _; exact hf.2.2.2.2
          · intro _ _ hc; exact absurd hb hc
        · rw [hform, if_neg hm, if_neg he, if_neg hb]
          refine ⟨rfl, rfl, fun j _ => rfl, ?_, ?_, ?_, fun _ _ _ => rfl⟩
          · intro hm2; exact absurd hm2 hm
          · intro he2; exact absurd he2 he
          · intro hb2; exact absurd hb2 hb

/-- Witness for `parseRsl10Message_spec`: a short message and an
unauthorized message leave the state alone; the sample ESD message for
the authorized device keeps the movement and battery data of the slot
the resolution phase assigned it. -/
theorem parseRsl10Message_spec_witness :
    parseRsl10Message "BAT 123" rsl10AuthState = rsl10AuthState ∧
    parseRsl10Message esdSampleMsg initRsl10State = initRsl10State ∧
    (movFieldsEq
        ((parseRsl10Message esdSampleMsg rsl10AuthState).Rsl10DeviceList.getD 0
          initRSL10Device)
        (((rsl10ResolveIndex (extractBdAddress esdSampleMsg.data) rsl10AuthState).getD
            (0, initRsl10State)).snd.Rsl10DeviceList.getD 0 initRSL10Device) ∧
      batFieldEq
        ((parseRsl10Message esdSampleMsg rsl10AuthState).Rsl10DeviceList.getD 0
          initRSL10Device)
        (((rsl10ResolveIndex (extractBdAddress esdSampleMsg.data) rsl10AuthState).getD
            (0, initRsl10State)).snd.Rsl10DeviceList.getD 0 initRSL10Device)) := by
  refine ⟨?_, ?_, ?_⟩
  · exact (parseRsl10Message_spec "BAT 123" rsl10AuthState 0 initRsl10State).1 (by decide)
  · exact (parseRsl10Message_spec esdSampleMsg initRsl10State 0 initRsl10State).2.1
      (by decide) (by decide)
  · have h := (parseRsl10Message_spec esdSampleMsg rsl10AuthState
        ((rsl10ResolveIndex (extractBdAddress esdSampleMsg.data) rsl10AuthState).getD
          (0, initRsl10State)).fst
        ((rsl10ResolveIndex (extractBdAddress esdSampleMsg.data) rsl10AuthState).getD
          (0, initRsl10State)).snd).2.2.2 (by decide) (by decide) (by decide)
    exact h.2.2.2.2.1 (by decide)

end Avnet
